import Mathlib

/-!
Shallow embedding of the Tracking Engine of the satellite-tracking repository
(source file satellite_tracker.py) together with proofs of the specification
claims.  Python strings are modelled as Lean String values, Python ints as Int,
Python floats that the code parses out of fixed character ranges as ℚ.
External effects (HTTP fetches, the skyfield propagation library) are modelled
as explicit inputs: a fetch result is an Option String, propagation results are
oracle functions passed as parameters.  All definitions are executable.
-/

namespace SatTracker

/-! ### Python string primitives used by the source -/

/-- Model of the Python slice s[a:b] (clamping, character based). -/
def pySlice (s : String) (a b : Nat) : String :=
  String.mk ((s.toList.drop a).take (b - a))

/-- Model of the Python slice s[a:] . -/
def pyDrop (s : String) (a : Nat) : String :=
  String.mk (s.toList.drop a)

/-- Whitespace class of Python str.strip (ASCII part). -/
def isPySpace (c : Char) : Bool :=
  c == ' ' || c == '\t' || c == '\n' || c == '\r' || c == '\x0b' || c == '\x0c'

/-- Model of Python str.strip(): remove leading and trailing whitespace. -/
def pyStrip (s : String) : String :=
  String.mk (((s.toList.dropWhile isPySpace).reverse.dropWhile
    isPySpace).reverse)

/-- Split a character list on a separator character; models Python
str.split(sep) for a one-character separator (empty input gives one empty
chunk, like Python). -/
def splitChar (sep : Char) : List Char → List (List Char)
  | [] => [[]]
  | c :: t =>
    match splitChar sep t with
    | [] => if c == sep then [[], []] else [[c]]
    | h :: r => if c == sep then [] :: h :: r else (c :: h) :: r

/-- Model of Python text.split(chr(10)) on a string. -/
def pySplitNl (s : String) : List String :=
  (splitChar '\n' s.toList).map String.mk

/-- Lexicographic code-point order on character lists. -/
def charListLt : List Char → List Char → Bool
  | [], [] => false
  | [], _ :: _ => true
  | _ :: _, [] => false
  | a :: as, b :: bs =>
    if a < b then true else if b < a then false else charListLt as bs

/-- Model of the Python string comparison a < b (lexicographic by code
point). -/
def pyStrLt (a b : String) : Bool :=
  charListLt a.toList b.toList

/-- Value of a nonempty all-digit character list. -/
def digitsVal (l : List Char) : Nat :=
  l.foldl (fun a c => 10 * a + (c.toNat - 48)) 0

/-- Parse a nonempty list of decimal digits. -/
def parseNatDigits (l : List Char) : Option Nat :=
  if l ≠ [] ∧ l.all Char.isDigit then some (digitsVal l) else none

/-- Model of Python int(s): optional surrounding whitespace, optional sign,
then decimal digits.  (Underscore digit separators are not modelled; none of
the claims depends on them.) -/
def pyInt (s : String) : Option Int :=
  match (pyStrip s).toList with
  | '-' :: r => (parseNatDigits r).map (fun n => -(n : Int))
  | '+' :: r => (parseNatDigits r).map (fun n => (n : Int))
  | r => (parseNatDigits r).map (fun n => (n : Int))

/-- Parse an unsigned decimal literal, with at most one point, into ℚ. -/
def parseDecimal (body : List Char) : Option ℚ :=
  match splitChar '.' body with
  | [ip] =>
    if ip ≠ [] ∧ ip.all Char.isDigit then
      some ((digitsVal ip : ℚ))
    else none
  | [ip, fp] =>
    if (ip ≠ [] ∨ fp ≠ []) ∧ ip.all Char.isDigit ∧ fp.all Char.isDigit then
      some ((digitsVal ip : ℚ) +
        (digitsVal fp : ℚ) / (10 : ℚ) ^ fp.length)
    else none
  | _ => none

/-- Model of Python float(s) on the decimal literals the tracker parses out of
element-set lines: optional whitespace, optional sign, digits with at most one
decimal point.  (Exponent, inf and nan forms are not modelled; the fixed-width
element-set fields never use them.) -/
def pyFloat (s : String) : Option ℚ :=
  match (pyStrip s).toList with
  | '-' :: r => (parseDecimal r).map (fun q => -q)
  | '+' :: r => parseDecimal r
  | r => parseDecimal r

/-- Containment test on character lists: does the second list contain the
first as a contiguous run?  Models the Python substring operator in. -/
def containsSeq (needle : List Char) : List Char → Bool
  | [] => needle.isEmpty
  | c :: t => needle.isPrefixOf (c :: t) || containsSeq needle t

/-- Lowercased character list of a string; models Python str.lower() on the
ASCII names the tracker handles. -/
def lowerStr (s : String) : List Char :=
  s.toList.map Char.toLower

/-- Substring test against an already-lowercased name. -/
def hasSub (hay : List Char) (needle : String) : Bool :=
  containsSeq needle.toList hay

/-! ### The fixed category taxonomy (source: _define_categories) -/

inductive Category where
  | ISS | GPS | GLONASS | Galileo | BeiDou | Weather | Earth_Observation
  | Communication | Starlink | OneWeb | Iridium | Scientific
  | Space_Telescopes | Military | CubeSats | Amateur_Radio | Technology_Demo
  | Debris_Tracking | Geostationary | LEO_Constellation | Commercial
  | Rocket_Bodies | Other
  deriving DecidableEq, Repr

/-- Display colors of the fixed taxonomy (source: _define_categories). -/
def categoryColor : Category → String
  | .ISS => "#FF6B6B"
  | .GPS => "#4ECDC4"
  | .GLONASS => "#FF8C42"
  | .Galileo => "#6A4C93"
  | .BeiDou => "#F25C54"
  | .Weather => "#45B7D1"
  | .Earth_Observation => "#52B788"
  | .Communication => "#96CEB4"
  | .Starlink => "#E9C46A"
  | .OneWeb => "#F4A261"
  | .Iridium => "#E76F51"
  | .Scientific => "#FFEAA7"
  | .Space_Telescopes => "#264653"
  | .Military => "#DDA0DD"
  | .CubeSats => "#F72585"
  | .Amateur_Radio => "#4CC9F0"
  | .Technology_Demo => "#7209B7"
  | .Debris_Tracking => "#A44A3F"
  | .Geostationary => "#F77F00"
  | .LEO_Constellation => "#FCBF49"
  | .Commercial => "#FFB347"
  | .Rocket_Bodies => "#8B5A3C"
  | .Other => "#A8A8A8"

/-! ### Categorizer (source: _categorize_satellite, lines 277-356) -/

/-- Categorizer cascade on the lowered name.  Rule order reproduces the
if-chain of _categorize_satellite exactly; note that the Amateur_Radio rule
reproduces the Python operator precedence: amateur or ham or (radio and sat).
-/
def categorizeLowered (n : List Char) (noradId : Int) : Category :=
  if noradId == 25544 || hasSub n "iss" then .ISS
  else if hasSub n "gps" || hasSub n "navstar" then .GPS
  else if hasSub n "glonass" then .GLONASS
  else if hasSub n "galileo" then .Galileo
  else if hasSub n "beidou" || hasSub n "compass" then .BeiDou
  else if hasSub n "starlink" then .Starlink
  else if hasSub n "oneweb" then .OneWeb
  else if hasSub n "iridium" then .Iridium
  else if hasSub n "noaa" || hasSub n "goes" || hasSub n "meteosat" ||
      hasSub n "weather" || hasSub n "metop" || hasSub n "himawari" then .Weather
  else if hasSub n "landsat" || hasSub n "sentinel" || hasSub n "terra" ||
      hasSub n "aqua" || hasSub n "modis" || hasSub n "worldview" then .Earth_Observation
  else if hasSub n "hubble" || hasSub n "kepler" || hasSub n "tess" ||
      hasSub n "chandra" || hasSub n "spitzer" || hasSub n "jwst" ||
      hasSub n "telescope" || hasSub n "observatory" then .Space_Telescopes
  else if hasSub n "science" || hasSub n "research" || hasSub n "explorer" ||
      hasSub n "mission" || hasSub n "experiment" then .Scientific
  else if hasSub n "cubesat" || hasSub n "cube" || hasSub n "picosatellite" ||
      hasSub n "nanosat" || hasSub n "microsat" then .CubeSats
  else if hasSub n "amateur" || hasSub n "ham" ||
      (hasSub n "radio" && hasSub n "sat") then .Amateur_Radio
  else if hasSub n "demo" || hasSub n "test" || hasSub n "technology" ||
      hasSub n "experimental" then .Technology_Demo
  else if hasSub n "usa" || hasSub n "nro" || hasSub n "dscs" ||
      hasSub n "milstar" || hasSub n "sbirs" || hasSub n "lacrosse" then .Military
  else if hasSub n "rocket" || hasSub n "r/b" || hasSub n "debris" ||
      hasSub n "stage" then .Rocket_Bodies
  else if hasSub n "intelsat" || hasSub n "eutelsat" || hasSub n "ses" ||
      hasSub n "communication" || hasSub n "telecom" ||
      hasSub n "broadcast" then .Communication
  else if hasSub n "geo" || hasSub n "geostationary" then .Geostationary
  else .Other

/-- Categorizer (source: _categorize_satellite).  Lowers the display name and
runs the ordered rule cascade. -/
def categorizeSat (name : String) (noradId : Int) : Category :=
  categorizeLowered (lowerStr name) noradId

/-! ### Ingestion pipeline (source: load_tle_data, lines 139-275) -/

/-- Catalog record for one tracked object (source: the per-satellite dict
built at lines 228-234; the opaque skyfield satellite handle is elided, its
construction success is the buildOk oracle below). -/
structure TleRecord where
  name : String
  line1 : String
  line2 : String
  category : Category
  deriving DecidableEq, Repr

/-- Catalog: insertion-ordered mapping CatalogId -> record, modelling the
Python dict all_satellites (Python dicts preserve insertion order). -/
abbrev Catalog := List (Int × TleRecord)

/-- Structural validity check of an element-set triplet (source lines
220-221): correct line markers and the fixed length 69 on both lines. -/
def validTLE (line1 line2 : String) : Bool :=
  "1 ".toList.isPrefixOf line1.toList && "2 ".toList.isPrefixOf line2.toList &&
    line1.toList.length == 69 && line2.toList.length == 69

/-- Oracle deciding whether the EarthSatellite constructor succeeds on the
given (line1, line2, name); models the try at source lines 223-240 around the
skyfield call.  The subsequent int(line1[2:7]) parse is modelled exactly. -/
abbrev BuildOk := String → String → String → Bool

/-- Parse loop over one fetched body (source lines 210-240): consume the line
list in consecutive triplets (for i in range(0, len(lines)-2, 3)); stop when
fewer than three lines remain or when either counter reaches 2000.  State:
(catalog, satellite_count, url_satellite_count). -/
def ingestLines (bOk : BuildOk) : List String → Catalog → Nat → Nat →
    Catalog × Nat × Nat
  | nm :: a :: b :: rest, cat, total, urlCount =>
    if 2000 ≤ total ∨ 2000 ≤ urlCount then (cat, total, urlCount)
    else
      if validTLE (pyStrip a) (pyStrip b) then
        if bOk (pyStrip nm) (pyStrip a) (pyStrip b) then
          match pyInt (pySlice (pyStrip a) 2 7) with
          | some noradId =>
            if (cat.lookup noradId).isNone then
              ingestLines bOk rest
                (cat ++ [(noradId,
                  ⟨(pyStrip nm), (pyStrip a), (pyStrip b), categorizeSat (pyStrip nm) noradId⟩)])
                (total + 1) (urlCount + 1)
            else ingestLines bOk rest cat total urlCount
          | none => ingestLines bOk rest cat total urlCount
        else ingestLines bOk rest cat total urlCount
      else ingestLines bOk rest cat total urlCount
  | _, cat, total, urlCount => (cat, total, urlCount)

/-- One source group: an ordered list of endpoints, each already resolved to
its fetch outcome (none = network/HTTP failure raised by requests, some body
= the response text). -/
abbrev Group := List (Option String)

/-- Endpoint loop of one source group (source lines 198-248): per-endpoint
failures are skipped; a fetched body is split on newlines after stripping;
successful_loads counts endpoints that yielded at least one record; the loop
breaks once satellite_count reaches 2000.  State: (catalog, satellite_count,
successful_loads). -/
def processGroup (bOk : BuildOk) : Group → Catalog → Nat → Nat →
    Catalog × Nat × Nat
  | [], cat, total, succ => (cat, total, succ)
  | u :: rest, cat, total, succ =>
    if 2000 ≤ total then (cat, total, succ)
    else
      match u with
      | none => processGroup bOk rest cat total succ
      | some body =>
        let r := ingestLines bOk (pySplitNl (pyStrip body)) cat total 0
        processGroup bOk rest r.1 r.2.1
          (if 0 < r.2.2 then succ + 1 else succ)

/-- Group loop (source lines 191-255), instrumented with the list of group
indices actually attempted: groups are tried in priority order; a group with
successful_loads > 0 stops the iteration; the loop also breaks when the
2000-record ceiling is reached.  Returns (catalog, satellite_count,
attempted-group indices). -/
def processGroups (bOk : BuildOk) : List Group → Catalog → Nat →
    List Nat → Nat → Catalog × Nat × List Nat
  | [], cat, total, att, _ => (cat, total, att)
  | g :: rest, cat, total, att, idx =>
    if 2000 ≤ total then (cat, total, att)
    else
      let r := processGroup bOk g cat total 0
      if 0 < r.2.2 then (r.1, r.2.1, att ++ [idx])
      else processGroups bOk rest r.1 r.2.1 (att ++ [idx]) (idx + 1)

/-- Hardcoded fallback element lines (source lines 372-373). -/
def issLine1 : String :=
  "1 25544U 98067A   23001.00000000  .00002182  00000-0  40768-4 0  9990"

def issLine2 : String :=
  "2 25544  51.6461 339.7939 0001220  92.8340 267.3124 15.49309239 00000"

/-- Built-in fallback record (source lines 376-384; the category field is
hardcoded to the station category there). -/
def issRecord : TleRecord :=
  ⟨"ISS (ZARYA)", issLine1, issLine2, .ISS⟩

/-- Fallback catalog installed when every source group yields nothing
(source: _load_fallback_data, lines 368-388).  The skyfield constructor on
these fixed well-formed lines succeeds, so the guarded assignment always
installs exactly this one record. -/
def fallbackCatalog : Catalog :=
  [(25544, issRecord)]

/-- Ingestion entry point (source: load_tle_data), instrumented with the
attempted-group trace.  All per-endpoint and per-record failures are absorbed
inside the loops; if no group yields any record the built-in fallback catalog
is installed. -/
def loadTleData (bOk : BuildOk) (groups : List Group) : Catalog × List Nat :=
  let r := processGroups bOk groups [] 0 [] 0
  if r.1.isEmpty then (fallbackCatalog, r.2.2) else (r.1, r.2.2)

/-! ### Query layer helpers (source lines 545-644) -/

/-- Country heuristic (source: _get_country_from_satellite, lines 545-581). -/
def getCountry (name : String) (noradId : Int) : String :=
  let n := lowerStr name
  if noradId == 25544 then "International"
  else if hasSub n "usa" || hasSub n "noaa" || hasSub n "goes" ||
      hasSub n "landsat" || hasSub n "aqua" || hasSub n "terra" then
    "United States"
  else if hasSub n "cosmos" || hasSub n "glonass" || hasSub n "meteor" ||
      hasSub n "resurs" then "Russia"
  else if hasSub n "beidou" || hasSub n "fengyun" || hasSub n "yaogan" ||
      hasSub n "tiangong" then "China"
  else if hasSub n "galileo" || hasSub n "sentinel" || hasSub n "meteosat" ||
      hasSub n "eutelsat" then "Europe (ESA)"
  else if hasSub n "himawari" || hasSub n "jaxa" || hasSub n "mtsat" then
    "Japan"
  else if hasSub n "insat" || hasSub n "cartosat" || hasSub n "resourcesat" then
    "India"
  else if hasSub n "starlink" || hasSub n "oneweb" || hasSub n "iridium" then
    "Commercial"
  else "Unknown"

/-- Agency heuristic (source: _get_agency_from_satellite, lines 583-606). -/
def getAgency (name : String) (category : Category) : String :=
  let n := lowerStr name
  if hasSub n "starlink" then "SpaceX"
  else if hasSub n "oneweb" then "OneWeb"
  else if hasSub n "iridium" then "Iridium Communications"
  else if hasSub n "noaa" || hasSub n "goes" || hasSub n "landsat" then
    "NASA/NOAA"
  else if hasSub n "glonass" then "Roscosmos"
  else if hasSub n "galileo" then "ESA"
  else if hasSub n "beidou" then "CNSA"
  else if category = .ISS then "NASA/Roscosmos/ESA/JAXA"
  else if category = .Military then "Defense Department"
  else "Various"

/-- Satellite type from category (source: _get_satellite_type, lines
608-634); categories absent from the mapping give Unknown. -/
def getSatelliteType : Category → String
  | .ISS => "Space Station"
  | .GPS => "Navigation"
  | .GLONASS => "Navigation"
  | .Galileo => "Navigation"
  | .BeiDou => "Navigation"
  | .Weather => "Weather/Climate"
  | .Earth_Observation => "Earth Observation"
  | .Communication => "Communication"
  | .Starlink => "Internet Constellation"
  | .OneWeb => "Internet Constellation"
  | .Iridium => "Communication"
  | .Scientific => "Scientific Research"
  | .Space_Telescopes => "Space Observatory"
  | .Military => "Defense/Intelligence"
  | .CubeSats => "Small Satellite"
  | .Amateur_Radio => "Amateur Radio"
  | .Technology_Demo => "Technology Demo"
  | .Debris_Tracking => "Debris/Inactive"
  | .Geostationary => "Communication/Broadcasting"
  | .LEO_Constellation => "Constellation"
  | .Commercial => "Commercial"
  | .Rocket_Bodies => "Rocket Stage/Debris"
  | .Other => "Unknown"

/-- Approximate launch data decoded from the 14-character epoch field
(source: _extract_launch_date, lines 636-644, and the identical inline code
at lines 422-431): the two leading characters are compared as strings against
the pivot, the year is int(prefix ++ two digits), the day-of-year is
float(rest).  Result (year, day-of-year); none models the Unknown branch.
The final Gregorian-calendar rendering of Jan 1 of the year plus
(day-of-year - 1) days is elided; the claims concern the year pivot and the
year-plus-day decomposition, not the calendar formatting. -/
def extractLaunchDate (epoch : String) : Option (Int × ℚ) :=
  let two := pySlice epoch 0 2
  let yearOpt :=
    if pyStrLt two "57" then pyInt ("20" ++ two) else pyInt ("19" ++ two)
  match yearOpt, pyFloat (pyDrop epoch 2) with
  | some y, some d => some (y, d)
  | _, _ => none

/-! ### Position batch query (source: get_satellite_positions, lines 394-452)

Propagation and the finite-difference velocity are delegated to skyfield;
they are modelled here as an oracle giving, per catalog id, either the
derived (latitude, longitude, altitude km, velocity m per s) or none when any
of those external calls raises. -/

structure SubPoint where
  lat : ℚ
  lon : ℚ
  altKm : ℚ
  vel : ℚ
  deriving DecidableEq, Repr

abbrev PropOracle := Int → Option SubPoint

structure PositionEntry where
  noradId : Int
  name : String
  latitude : ℚ
  longitude : ℚ
  altitude : ℚ
  velocity : ℚ
  orbitalPeriod : ℚ
  category : Category
  color : String
  launch : Option (Int × ℚ)
  deriving DecidableEq, Repr

/-- Per-record body of the positions loop (source lines 402-450).  Failure of
the propagation calls or of the mean-motion parse raises inside the per-record
try and skips the record; the launch-date decode has its own inner try whose
failure only yields the Unknown marker (here: none in the launch field). -/
def computePosition (oracle : PropOracle) (noradId : Int)
    (rec : TleRecord) : Option PositionEntry :=
  match oracle noradId with
  | none => none
  | some sp =>
    match pyFloat (pySlice rec.line2 52 63) with
    | none => none
    | some mm =>
      some
        { noradId := noradId
          name := rec.name
          latitude := sp.lat
          longitude := sp.lon
          altitude := sp.altKm
          velocity := sp.vel
          orbitalPeriod := if 0 < mm then 1440 / mm else 0
          category := rec.category
          color := categoryColor rec.category
          launch := extractLaunchDate (pySlice rec.line1 18 32) }

/-- Position snapshot over the whole catalog (source lines 402-452): each
record is attempted independently, failed records are skipped.  (The
staleness-triggered reload at lines 396-397 is the refresh policy, outside
the queried snapshot; the function is modelled over the current catalog.) -/
def getSatellitePositions (oracle : PropOracle) (cat : Catalog) :
    List PositionEntry :=
  cat.filterMap (fun p => computePosition oracle p.1 p.2)

/-! ### Detail query (source: get_satellite_details, lines 454-543) -/

structure Detail where
  noradId : Int
  name : String
  category : Category
  altitude : ℚ
  inclination : ℚ
  eccentricity : ℚ
  argPerigee : ℚ
  meanAnomaly : ℚ
  period : ℚ
  velocityKms : ℚ
  orbitType : String
  latitude : ℚ
  longitude : ℚ
  country : String
  visibility : String
  launch : Option (Int × ℚ)
  satType : String
  agency : String
  status : String
  line1 : String
  line2 : String
  epoch : String
  deriving DecidableEq, Repr

/-- Detail query (source lines 454-543): none when the id is absent from the
catalog, and also none when the guarded computation raises — a propagation
failure or any element-field parse failure. -/
def getSatelliteDetails (oracle : PropOracle) (cat : Catalog)
    (noradId : Int) : Option Detail :=
  match cat.lookup noradId with
  | none => none
  | some rec =>
    match oracle noradId with
    | none => none
    | some sp =>
      match pyFloat (pySlice rec.line2 8 16),
          pyFloat ("0." ++ pySlice rec.line2 26 33),
          pyFloat (pySlice rec.line2 34 42),
          pyFloat (pySlice rec.line2 43 51),
          pyFloat (pySlice rec.line2 52 63) with
      | some incl, some ecc, some argp, some ma, some mm =>
        some
          { noradId := noradId
            name := rec.name
            category := rec.category
            altitude := sp.altKm
            inclination := incl
            eccentricity := ecc
            argPerigee := argp
            meanAnomaly := ma
            period := if 0 < mm then 1440 / mm else 0
            velocityKms := sp.vel / 1000
            orbitType :=
              if sp.altKm < 2000 then "LEO (Low Earth Orbit)"
              else if sp.altKm < 35000 then "MEO (Medium Earth Orbit)"
              else "GEO (Geostationary Orbit)"
            latitude := sp.lat
            longitude := sp.lon
            country := getCountry rec.name noradId
            visibility :=
              if sp.altKm < 1000 then "Visible" else "Telescope Required"
            launch := extractLaunchDate (pySlice rec.line1 18 32)
            satType := getSatelliteType rec.category
            agency := getAgency rec.name rec.category
            status := if 0 < mm then "Active" else "Inactive"
            line1 := rec.line1
            line2 := rec.line2
            epoch := pySlice rec.line1 18 32 }
      | _, _, _, _, _ => none

/-! ### Ground-track sampling (source: get_orbital_path, lines 646-679)

Times are modelled as rationals in days (the tt Julian-date axis used by the
source); the per-sample propagation is an oracle from time to sub-point or
none when the skyfield call raises. -/

structure OrbitPoint where
  latitude : ℚ
  longitude : ℚ
  altitude : ℚ
  deriving DecidableEq, Repr

abbrev PathOracle := ℚ → Option OrbitPoint

/-- Sample times of the ground track (source lines 655-660): for i in
range(100), now + (i * hours) / (24 * 100) days. -/
def sampleTimes (now hours : ℚ) : List ℚ :=
  (List.range 100).map (fun (i : Nat) => now + ((i : ℚ) * hours) / (24 * 100))

/-- Orbital path query (source lines 646-679): empty for an unknown id;
otherwise the 100 sample times are propagated one by one and failing samples
are skipped. -/
def getOrbitalPath (oracle : PathOracle) (cat : Catalog) (noradId : Int)
    (now hours : ℚ) : List OrbitPoint :=
  if (cat.lookup noradId).isNone then []
  else (sampleTimes now hours).filterMap oracle

/-! ### Pass prediction (source: get_next_passes, lines 681-745)

Event times are modelled as rationals in seconds on the UTC axis; the
second-rounded ISO serialization round trip the source performs on them is
the identity on such whole-second timestamps.  The find_events call is an
input: none models the call raising (the except at line 742, returning the
empty pass list), some evs its ordered event sequence.  The topocentric
altaz computation is a total oracle time -> (elevation, azimuth, range). -/

inductive EventKind where
  | rise | culmination | setting
  deriving DecidableEq, Repr

abbrev AltAzOracle := ℚ → ℚ × ℚ × ℚ

structure PassRec where
  riseTime : ℚ
  riseAzimuth : ℚ
  culmination : Option (ℚ × ℚ × ℚ)
  setTime : ℚ
  setAzimuth : ℚ
  durationMinutes : ℚ
  deriving DecidableEq, Repr

/-- Partially built pass: the current_pass dict.  It is nonempty exactly when
a rise event has been seen since the last completed pass, so the rise time is
always present and only the culmination fields are optional. -/
structure PassBuild where
  riseTime : ℚ
  culmination : Option (ℚ × ℚ × ℚ)
  deriving DecidableEq, Repr

/-- Event-assembly loop (source lines 700-740): a rise starts (or restarts)
the current pass; a culmination updates it only if one is open; a set closes
an open pass, computing both azimuths and the duration (set - rise) converted
from seconds to minutes, and appends it. -/
def buildPasses (altaz : AltAzOracle) :
    List (ℚ × EventKind) → Option PassBuild → List PassRec → List PassRec
  | [], _, acc => acc
  | (t, .rise) :: rest, _, acc =>
    buildPasses altaz rest (some ⟨t, none⟩) acc
  | (t, .culmination) :: rest, cur, acc =>
    match cur with
    | none => buildPasses altaz rest none acc
    | some pb =>
      let r := altaz t
      buildPasses altaz rest (some ⟨pb.riseTime, some (t, r.1, r.2.1)⟩) acc
  | (t, .setting) :: rest, cur, acc =>
    match cur with
    | none => buildPasses altaz rest none acc
    | some pb =>
      let rr := altaz pb.riseTime
      let rs := altaz t
      buildPasses altaz rest none
        (acc ++ [⟨pb.riseTime, rr.2.1, pb.culmination, t, rs.2.1,
          (t - pb.riseTime) / 60⟩])

/-- Pass query (source lines 681-745): empty for an unknown id; empty when
find_events raises; otherwise the assembled passes truncated to the first
three. -/
def getNextPasses (altaz : AltAzOracle) (cat : Catalog) (noradId : Int)
    (events : Option (List (ℚ × EventKind))) : List PassRec :=
  if (cat.lookup noradId).isNone then []
  else
    match events with
    | none => []
    | some evs => (buildPasses altaz evs none []).take 3

/-! ### Lemmas about the ingestion loops -/

/-- Lookup misses exactly the keys that are absent. -/
theorem lookup_none_iff (cat : Catalog) (k : Int) :
    cat.lookup k = none ↔ k ∉ cat.map Prod.fst := by
  induction cat with
  | nil => simp [List.lookup]
  | cons p rest ih =>
    obtain ⟨a, r⟩ := p
    by_cases h : k = a
    · subst h
      simp [List.lookup]
    · have hba : (k == a) = false := beq_eq_false_iff_ne.mpr h
      simp [List.lookup, hba, h, ih]

/-- The triplet loop only appends: it returns the input catalog extended by
the newly accepted records, and both counters advance by exactly the number
of appended records. -/
theorem ingestLines_spec (bOk : BuildOk) :
    ∀ (ls : List String) (cat : Catalog) (total u : Nat),
      ∃ δ : Catalog, ingestLines bOk ls cat total u =
        (cat ++ δ, total + δ.length, u + δ.length)
  | [], cat, total, u => ⟨[], by simp [ingestLines]⟩
  | [a], cat, total, u => ⟨[], by simp [ingestLines]⟩
  | [a, b], cat, total, u => ⟨[], by simp [ingestLines]⟩
  | nm :: a :: b :: rest, cat, total, u => by
    rw [ingestLines]
    split
    · exact ⟨[], by simp⟩
    · split
      · split
        · split
          · split
            · rename_i noradId _ _
              obtain ⟨δ, hδ⟩ := ingestLines_spec bOk rest
                (cat ++ [(noradId,
                  ⟨(pyStrip nm), (pyStrip a), (pyStrip b), categorizeSat (pyStrip nm) noradId⟩)])
                (total + 1) (u + 1)
              refine ⟨(noradId,
                ⟨(pyStrip nm), (pyStrip a), (pyStrip b), categorizeSat (pyStrip nm) noradId⟩) :: δ,
                ?_⟩
              rw [hδ]
              simp [List.append_assoc]
              omega
            · exact ingestLines_spec bOk rest cat total u
          · exact ingestLines_spec bOk rest cat total u
        · exact ingestLines_spec bOk rest cat total u
      · exact ingestLines_spec bOk rest cat total u

/-- The endpoint loop only appends, and it reports success (a strictly
increased successful_loads counter) exactly when it appended something. -/
theorem processGroup_spec (bOk : BuildOk) :
    ∀ (g : Group) (cat : Catalog) (total s : Nat),
      ∃ (δ : Catalog) (k : Nat),
        processGroup bOk g cat total s =
          (cat ++ δ, total + δ.length, s + k) ∧ (k = 0 ↔ δ = [])
  | [], cat, total, s => ⟨[], 0, by simp [processGroup]⟩
  | u :: rest, cat, total, s => by
    rw [processGroup.eq_def]
    dsimp only
    split
    · exact ⟨[], 0, by simp⟩
    · match u with
      | none => exact processGroup_spec bOk rest cat total s
      | some body =>
        obtain ⟨δ₁, h₁⟩ :=
          ingestLines_spec bOk (pySplitNl (pyStrip body)) cat total 0
        simp only [h₁]
        obtain ⟨δ₂, k₂, h₂, hk₂⟩ :=
          processGroup_spec bOk rest (cat ++ δ₁) (total + δ₁.length)
            (if 0 < 0 + δ₁.length then s + 1 else s)
        rcases List.eq_nil_or_concat δ₁ with hδ | ⟨l, x, hδ⟩
        · subst hδ
          refine ⟨δ₂, k₂, ?_, hk₂⟩
          simpa using h₂
        · have hpos : 0 < δ₁.length := by
            subst hδ
            simp
          have hif : (if 0 < 0 + δ₁.length then s + 1 else s) = s + 1 := by
            rw [if_pos]
            omega
          rw [hif] at h₂
          refine ⟨δ₁ ++ δ₂, k₂ + 1, ?_, ?_⟩
          · rw [hif, h₂]
            simp only [Prod.mk.injEq]
            refine ⟨by rw [List.append_assoc], ?_, by omega⟩
            simp only [List.length_append]
            omega
          · constructor
            · intro hfalse
              exact absurd hfalse (by omega)
            · intro hc
              exfalso
              have hlen : δ₁.length + δ₂.length = 0 := by
                have := congrArg List.length hc
                simpa [List.length_append] using this
              omega

/-- Catalog invariant carried through the ingestion loops: the accepted count
matches the catalog size and stays at or below the 2000 ceiling, catalog ids
are pairwise distinct, and every stored record passed the structural element
validity check. -/
def goodCat (cat : Catalog) (total : Nat) : Prop :=
  cat.length = total ∧ total ≤ 2000 ∧ (cat.map Prod.fst).Nodup ∧
    ∀ p ∈ cat, validTLE p.2.line1 p.2.line2 = true

/-- The triplet loop preserves the catalog invariant. -/
theorem ingestLines_good (bOk : BuildOk) :
    ∀ (ls : List String) (cat : Catalog) (total u : Nat),
      goodCat cat total →
        goodCat (ingestLines bOk ls cat total u).1
          (ingestLines bOk ls cat total u).2.1
  | [], cat, total, u, h => by simpa [ingestLines] using h
  | [a], cat, total, u, h => by simpa [ingestLines] using h
  | [a, b], cat, total, u, h => by simpa [ingestLines] using h
  | nm :: a :: b :: rest, cat, total, u, h => by
    rw [ingestLines]
    split
    · simpa using h
    · rename_i hlt
      split
      · rename_i hv
        split
        · split
          · rename_i noradId _
            split
            · rename_i hnew
              refine ingestLines_good bOk rest _ (total + 1) (u + 1) ?_
              obtain ⟨hlen, hle, hnd, hval⟩ := h
              refine ⟨by simp [hlen], by omega, ?_, ?_⟩
              · have hmem : noradId ∉ cat.map Prod.fst := by
                  rw [← lookup_none_iff]
                  exact Option.isNone_iff_eq_none.mp hnew
                simp only [List.map_append, List.map_cons, List.map_nil]
                rw [← List.concat_eq_append]
                exact List.Nodup.concat hmem hnd
              · intro p hp
                rcases List.mem_append.mp hp with hp | hp
                · exact hval p hp
                · simp at hp
                  subst hp
                  exact hv
            · exact ingestLines_good bOk rest cat total u h
          · exact ingestLines_good bOk rest cat total u h
        · exact ingestLines_good bOk rest cat total u h
      · exact ingestLines_good bOk rest cat total u h

/-- The endpoint loop preserves the catalog invariant. -/
theorem processGroup_good (bOk : BuildOk) :
    ∀ (g : Group) (cat : Catalog) (total s : Nat),
      goodCat cat total →
        goodCat (processGroup bOk g cat total s).1
          (processGroup bOk g cat total s).2.1
  | [], cat, total, s, h => by simpa [processGroup] using h
  | u :: rest, cat, total, s, h => by
    rw [processGroup.eq_def]
    dsimp only
    split
    · simpa using h
    · match u with
      | none => exact processGroup_good bOk rest cat total s h
      | some body =>
        exact processGroup_good bOk rest _ _ _
          (ingestLines_good bOk (pySplitNl (pyStrip body)) cat total 0 h)

/-- The group loop preserves the catalog invariant. -/
theorem processGroups_good (bOk : BuildOk) :
    ∀ (gs : List Group) (cat : Catalog) (total : Nat) (att : List Nat)
      (idx : Nat),
      goodCat cat total →
        goodCat (processGroups bOk gs cat total att idx).1
          (processGroups bOk gs cat total att idx).2.1
  | [], cat, total, att, idx, h => by simpa [processGroups] using h
  | g :: rest, cat, total, att, idx, h => by
    rw [processGroups.eq_def]
    dsimp only
    split
    · simpa using h
    · split
      · exact processGroup_good bOk g cat total 0 h
      · exact processGroups_good bOk rest _ _ (att ++ [idx]) (idx + 1)
          (processGroup_good bOk g cat total 0 h)

/-- Trivial construction oracle used by concrete witnesses: the skyfield
constructor succeeds on every record. -/
def bOkAll : BuildOk := fun _ _ _ => true

/-- Concrete well-formed element-set text with a single record. -/
def sampleTleText : String :=
  "ISS (ZARYA)\n" ++ issLine1 ++ "\n" ++ issLine2

/-- C1: ingestion iterates source groups in priority order and stops at the
first successful group.  A group whose endpoints all fail or yield zero valid
records leaves the accumulator untouched and the next group is tried; once a
group yields records, the catalog is exactly what that group produced from
the empty accumulator, the attempted-group trace is [0, 1], and any further
group is never attempted. -/
theorem c1_priority_fallback (bOk : BuildOk) (g1 g2 : Group)
    (rest : List Group) (h1 : (processGroup bOk g1 [] 0 0).2.2 = 0)
    (h2 : 0 < (processGroup bOk g2 [] 0 0).2.2) :
    loadTleData bOk (g1 :: g2 :: rest) =
      ((processGroup bOk g2 [] 0 0).1, [0, 1]) := by
  obtain ⟨δ₁, k₁, hg1, hk1⟩ := processGroup_spec bOk g1 [] 0 0
  have hk10 : k₁ = 0 := by
    rw [hg1] at h1
    simpa using h1
  have hδ10 : δ₁ = [] := hk1.mp hk10
  have hg1' : processGroup bOk g1 [] 0 0 = ([], 0, 0) := by
    rw [hg1, hδ10, hk10]
    simp
  obtain ⟨δ₂, k₂, hg2, hk2⟩ := processGroup_spec bOk g2 [] 0 0
  have hk2pos : 0 < k₂ := by
    rw [hg2] at h2
    simpa using h2
  have hδ2ne : δ₂ ≠ [] := by
    intro hc
    have := hk2.mpr hc
    omega
  have hpg : processGroups bOk (g1 :: g2 :: rest) [] 0 [] 0 =
      ((processGroup bOk g2 [] 0 0).1, (processGroup bOk g2 [] 0 0).2.1,
        [0, 1]) := by
    rw [processGroups.eq_def]
    dsimp only
    rw [if_neg (by omega), hg1']
    dsimp only
    rw [if_neg (by omega)]
    rw [processGroups.eq_def]
    dsimp only
    rw [if_neg (by omega), if_pos h2]
    simp
  have hne : (processGroup bOk g2 [] 0 0).1.isEmpty = false := by
    rw [hg2]
    simp [List.isEmpty_iff, hδ2ne]
  unfold loadTleData
  rw [hpg]
  dsimp only
  rw [hne]
  simp

/-- C1 witness: a first group whose only endpoint fails over to a second
group carrying one valid record; a third group is present but unattempted. -/
theorem c1_witness :
    loadTleData bOkAll [[none], [some sampleTleText], [some sampleTleText]] =
      ((processGroup bOkAll [some sampleTleText] [] 0 0).1, [0, 1]) :=
  c1_priority_fallback bOkAll [none] [some sampleTleText]
    [[some sampleTleText]] (by decide) (by decide)

/-- C2: when no source group yields any record the built-in fallback is
installed: the catalog after loadTleData is never empty, an all-failing run
installs the fallback, and that fallback is exactly one record with catalog
id 25544 whose hardcoded element lines pass the structural validity check.
Per-source failures are absorbed inside the loops (the function is total and
never propagates them). -/
theorem c2_fallback_record (bOk : BuildOk) (groups : List Group) :
    (loadTleData bOk groups).1 ≠ [] ∧
    ((processGroups bOk groups [] 0 [] 0).1 = [] →
      (loadTleData bOk groups).1 = fallbackCatalog) ∧
    (fallbackCatalog.map Prod.fst) = [25544] ∧
    validTLE issLine1 issLine2 = true := by
  refine ⟨?_, ?_, by decide, by decide⟩
  · unfold loadTleData
    dsimp only
    split
    · dsimp only
      decide
    · rename_i hne
      dsimp only
      simpa [List.isEmpty_iff] using hne
  · intro h0
    unfold loadTleData
    dsimp only
    rw [List.isEmpty_iff.mpr h0]
    simp

/-- C2 witness: a run whose only endpoint fails installs the fallback. -/
theorem c2_witness :
    (loadTleData bOkAll [[none]]).1 = fallbackCatalog :=
  (c2_fallback_record bOkAll [[none]]).2.1 (by decide)

/-- C3: for every input, the ingested catalog has pairwise distinct catalog
ids (first seen wins), every stored record passes the structural validity
check (line markers and the fixed length 69 on both lines), and at most 2000
records are accepted. -/
theorem c3_catalog_invariants (bOk : BuildOk) (groups : List Group) :
    ((loadTleData bOk groups).1.map Prod.fst).Nodup ∧
    (∀ p ∈ (loadTleData bOk groups).1,
      validTLE p.2.line1 p.2.line2 = true) ∧
    (loadTleData bOk groups).1.length ≤ 2000 := by
  have hg := processGroups_good bOk groups [] 0 [] 0
    ⟨rfl, by omega, List.nodup_nil, by simp⟩
  unfold loadTleData
  dsimp only
  split
  · exact ⟨by dsimp only; decide, by dsimp only; decide, by dsimp only; decide⟩
  · obtain ⟨hlen, hle, hnd, hval⟩ := hg
    exact ⟨hnd, hval, by dsimp only; omega⟩

/-! ### Concrete fixtures used by witnesses and counterexamples -/

/-- Propagation oracle that always succeeds with the zero sub-point. -/
def oracleConst : PropOracle := fun _ => some ⟨0, 0, 0, 0⟩

/-- Path oracle that always succeeds with the zero point. -/
def pathConst : PathOracle := fun _ => some ⟨0, 0, 0⟩

/-- Topocentric oracle that always reports zero elevation and azimuth. -/
def altazZero : AltAzOracle := fun _ => (0, 0, 0)

/-- Structurally valid element line 2 whose inclination field [8,16) is
unparseable. -/
def corruptInclLine2 : String :=
  pySlice issLine2 0 8 ++ "XXXXXXXX" ++ pyDrop issLine2 16

/-- Structurally valid element line 2 whose mean-motion field [52,63) is
unparseable. -/
def corruptMmLine2 : String :=
  pySlice issLine2 0 52 ++ "XXXXXXXXXXX" ++ pyDrop issLine2 63

/-- Catalog mixing a healthy record and a record with corrupted mean
motion. -/
def mixedCatalog : Catalog :=
  [(25544, issRecord), (99, ⟨"BROKEN-1", issLine1, corruptMmLine2, .Other⟩)]

/-- Catalog holding one record with corrupted inclination. -/
def corruptDetailCatalog : Catalog :=
  [(42, ⟨"BROKEN-2", issLine1, corruptInclLine2, .Other⟩)]

/-- Position entry the zero oracle derives from the fallback record (the
parses on this record all succeed, so the computation is some entry). -/
def issPosEntry : PositionEntry :=
  (computePosition oracleConst 25544 issRecord).get (by decide)

/-- Two-digit decimal rendering of a number below 100. -/
def twoDigitStr (y : Fin 100) : String :=
  String.mk [Char.ofNat (48 + (y : Nat) / 10), Char.ofNat (48 + (y : Nat) % 10)]

/-! ### Claim theorems C4 to C10 -/

/-- C4: the categorizer is a pure total function (a Lean function of the
display name and catalog id, hence deterministic), its result depends only on
the case-lowered name so it is case-insensitive, its rule cascade is the
ordered first-match-wins if-chain of categorizeLowered, and the three pinned
inputs evaluate to the station, Starlink and catch-all categories. -/
theorem c4_categorizer :
    (∀ (n1 n2 : String) (i : Int), lowerStr n1 = lowerStr n2 →
      categorizeSat n1 i = categorizeSat n2 i) ∧
    categorizeSat "ISS (ZARYA)" 25544 = Category.ISS ∧
    categorizeSat "STARLINK-1007" 44713 = Category.Starlink ∧
    categorizeSat "UNKNOWNSAT-1" 99999 = Category.Other := by
  refine ⟨?_, by decide, by decide, by decide⟩
  intro n1 n2 i h
  unfold categorizeSat
  rw [h]

/-- C4 witness: case-insensitivity applied at a concrete mixed-case name. -/
theorem c4_witness :
    categorizeSat "StArLiNk-1007" 44713 = categorizeSat "STARLINK-1007" 44713 :=
  c4_categorizer.1 "StArLiNk-1007" "STARLINK-1007" 44713 (by decide)

/-- C5 counterexample: the claim that the typed not-found result is produced
exactly on absent ids is false — a present record whose inclination field
does not parse also yields none, even though the propagation oracle
succeeds. -/
theorem c5_counterexample :
    getSatelliteDetails oracleConst corruptDetailCatalog 42 = none ∧
    corruptDetailCatalog.lookup 42 ≠ none := by
  constructor
  · decide
  · decide

/-- C5 (amended): getDetails returns none for every absent id, but absence is
not the only source of none — for a present record the result is some detail
exactly when the propagation call and all five element-field parses succeed,
so a per-record computation failure is also reported as none. -/
theorem c5_details_not_found (oracle : PropOracle) (cat : Catalog)
    (nid : Int) :
    (cat.lookup nid = none → getSatelliteDetails oracle cat nid = none) ∧
    (∀ rec, cat.lookup nid = some rec →
      ((getSatelliteDetails oracle cat nid).isSome ↔
        (oracle nid).isSome ∧
        (pyFloat (pySlice rec.line2 8 16)).isSome ∧
        (pyFloat ("0." ++ pySlice rec.line2 26 33)).isSome ∧
        (pyFloat (pySlice rec.line2 34 42)).isSome ∧
        (pyFloat (pySlice rec.line2 43 51)).isSome ∧
        (pyFloat (pySlice rec.line2 52 63)).isSome)) := by
  constructor
  · intro h
    unfold getSatelliteDetails
    rw [h]
  · intro rec hrec
    unfold getSatelliteDetails
    rw [hrec]
    cases ho : oracle nid with
    | none => simp
    | some sp =>
      cases h1 : pyFloat (pySlice rec.line2 8 16) <;>
        cases h2 : pyFloat ("0." ++ pySlice rec.line2 26 33) <;>
          cases h3 : pyFloat (pySlice rec.line2 34 42) <;>
            cases h4 : pyFloat (pySlice rec.line2 43 51) <;>
              cases h5 : pyFloat (pySlice rec.line2 52 63) <;>
                simp [h1, h2, h3, h4, h5]

/-- C5 witness: on the healthy fallback record every parse succeeds, so a
detail is produced. -/
theorem c5_witness :
    (getSatelliteDetails oracleConst fallbackCatalog 25544).isSome :=
  ((c5_details_not_found oracleConst fallbackCatalog 25544).2 issRecord
    (by decide)).mpr (by decide)

/-- Inversion of a successful per-record position computation: the oracle and
the mean-motion parse both succeeded and the entry is the record built from
their results. -/
theorem computePosition_inv (oracle : PropOracle) (k : Int)
    (rec : TleRecord) (e : PositionEntry)
    (h : computePosition oracle k rec = some e) :
    ∃ sp mm, oracle k = some sp ∧
      pyFloat (pySlice rec.line2 52 63) = some mm ∧
      e = { noradId := k
            name := rec.name
            latitude := sp.lat
            longitude := sp.lon
            altitude := sp.altKm
            velocity := sp.vel
            orbitalPeriod := if 0 < mm then 1440 / mm else 0
            category := rec.category
            color := categoryColor rec.category
            launch := extractLaunchDate (pySlice rec.line1 18 32) } := by
  unfold computePosition at h
  cases ho : oracle k with
  | none =>
    rw [ho] at h
    exact absurd h (by simp)
  | some sp =>
    rw [ho] at h
    cases hm : pyFloat (pySlice rec.line2 52 63) with
    | none =>
      rw [hm] at h
      exact absurd h (by simp)
    | some mm =>
      rw [hm] at h
      simp at h
      exact ⟨sp, mm, rfl, rfl, h.symm⟩

/-- Entries produced by the position batch carry the catalog id of their
source record. -/
theorem computePosition_noradId (oracle : PropOracle) (k : Int)
    (rec : TleRecord) (e : PositionEntry)
    (h : computePosition oracle k rec = some e) : e.noradId = k := by
  obtain ⟨sp, mm, _, _, he⟩ := computePosition_inv oracle k rec e h
  rw [he]

/-- C6: the position batch is a per-record filter: it is a total function (it
never raises), a record whose computation fails — in particular one whose
mean-motion field is unparseable — is omitted from the result without
affecting the batch, and every record whose own computation succeeds still
appears. -/
theorem c6_positions_skip (oracle : PropOracle) (cat : Catalog)
    (hnd : (cat.map Prod.fst).Nodup) (nid : Int) (rec : TleRecord)
    (hmem : (nid, rec) ∈ cat) :
    (computePosition oracle nid rec = none →
      ∀ e ∈ getSatellitePositions oracle cat, e.noradId ≠ nid) ∧
    (∀ e, computePosition oracle nid rec = some e →
      e ∈ getSatellitePositions oracle cat) := by
  constructor
  · intro hnone e he
    obtain ⟨p, hp, hfp⟩ := List.mem_filterMap.mp he
    intro hid
    have hfst : p.1 = nid := by
      rw [← computePosition_noradId oracle p.1 p.2 e hfp, hid]
    have hpeq : p = (nid, rec) :=
      List.inj_on_of_nodup_map hnd hp hmem (by simpa using hfst)
    rw [hpeq] at hfp
    rw [hnone] at hfp
    exact absurd hfp (by simp)
  · intro e he
    exact List.mem_filterMap.mpr ⟨(nid, rec), hmem, he⟩

/-- C6 witness: in a catalog holding the healthy fallback record and a record
with corrupted mean motion, the healthy entry appears in the batch. -/
theorem c6_witness :
    issPosEntry ∈ getSatellitePositions oracleConst mixedCatalog :=
  (c6_positions_skip oracleConst mixedCatalog (by decide) 25544 issRecord
    (by decide)).2 issPosEntry (Option.some_get (by decide)).symm

/-- C7: every produced position entry derives its orbital period as
1440 / meanMotion minutes with meanMotion parsed from characters [52,63) of
line 2 and period 0 whenever meanMotion is nonpositive, and derives its
launch data from the epoch characters [18,32) of line 1; on that epoch field
a two-digit year below 57 maps to the 2000s and every other two-digit year to
the 1900s. -/
theorem c7_period_launch (oracle : PropOracle) (nid : Int) (rec : TleRecord)
    (e : PositionEntry) (h : computePosition oracle nid rec = some e) :
    (∃ mm, pyFloat (pySlice rec.line2 52 63) = some mm ∧
      e.orbitalPeriod = if 0 < mm then 1440 / mm else 0) ∧
    e.launch = extractLaunchDate (pySlice rec.line1 18 32) ∧
    (∀ y : Fin 100,
      (extractLaunchDate (twoDigitStr y ++ "001.00000000")).map Prod.fst =
        some (if (y : Nat) < 57 then ((2000 + (y : Nat) : Nat) : Int)
          else ((1900 + (y : Nat) : Nat) : Int))) := by
  obtain ⟨sp, mm, _, hm, he⟩ := computePosition_inv oracle nid rec e h
  subst he
  exact ⟨⟨mm, hm, rfl⟩, rfl, by decide⟩

/-- C7 witness: the launch field of the concrete fallback entry is the epoch
decode of its line 1. -/
theorem c7_witness :
    issPosEntry.launch = extractLaunchDate (pySlice issLine1 18 32) :=
  (c7_period_launch oracleConst 25544 issRecord issPosEntry
    (Option.some_get (by decide)).symm).2.1

/-- C8: pass prediction returns at most the first three assembled passes; an
event-free window yields the empty sequence (the function is total, so it can
neither be null nor raise); and a full rise, culmination, set cycle yields
exactly one pass whose duration is (set time - rise time) converted from
seconds to minutes and is positive whenever the set follows the rise. -/
theorem c8_passes (altaz : AltAzOracle) (cat : Catalog) (nid : Int)
    (rec : TleRecord) (t0 t1 t2 : ℚ) (hlk : cat.lookup nid = some rec)
    (hlt : t0 < t2) :
    (∀ evs, (getNextPasses altaz cat nid evs).length ≤ 3) ∧
    getNextPasses altaz cat nid (some []) = [] ∧
    ∃ p, getNextPasses altaz cat nid
        (some [(t0, .rise), (t1, .culmination), (t2, .setting)]) = [p] ∧
      p.durationMinutes = (t2 - t0) / 60 ∧ 0 < p.durationMinutes := by
  refine ⟨?_, ?_, ?_⟩
  · intro evs
    unfold getNextPasses
    split
    · simp
    · match evs with
      | none => simp
      | some l =>
        rw [List.length_take]
        exact min_le_left _ _
  · simp [getNextPasses, hlk, buildPasses]
  · refine ⟨⟨t0, (altaz t0).2.1, some (t1, (altaz t1).1, (altaz t1).2.1),
      t2, (altaz t2).2.1, (t2 - t0) / 60⟩, ?_, rfl, ?_⟩
    · simp [getNextPasses, hlk, buildPasses]
    · have h60 : (0 : ℚ) < 60 := by norm_num
      exact div_pos (by linarith) h60

/-- C8 witness: a concrete full cycle over the fallback catalog yields a
nonempty pass list. -/
theorem c8_witness :
    getNextPasses altazZero fallbackCatalog 25544
      (some [(0, .rise), (30, .culmination), (60, .setting)]) ≠ [] := by
  obtain ⟨p, hp, _, _⟩ := (c8_passes altazZero fallbackCatalog 25544
    issRecord 0 30 60 (by decide) (by norm_num)).2.2
  rw [hp]
  simp

/-- C9: the ground-track query samples exactly 100 times, the sample times
start at now and advance in equal steps of hours/2400 days so they all lie in
[now, now + hours/24] days (the requested horizon of that many hours), each
sample is propagated independently with failing samples skipped, and the
result length is therefore at most 100. -/
theorem c9_orbit_path (oracle : PathOracle) (cat : Catalog) (nid : Int)
    (rec : TleRecord) (now hours : ℚ) (hlk : cat.lookup nid = some rec)
    (hh : 0 ≤ hours) :
    getOrbitalPath oracle cat nid now hours =
      (sampleTimes now hours).filterMap oracle ∧
    (sampleTimes now hours).length = 100 ∧
    (∀ i : Nat, i < 100 →
      (sampleTimes now hours).getD i 0 = now + (i : ℚ) * (hours / 2400)) ∧
    (∀ t ∈ sampleTimes now hours, now ≤ t ∧ t ≤ now + hours / 24) ∧
    (getOrbitalPath oracle cat nid now hours).length ≤ 100 := by
  have hlen : (sampleTimes now hours).length = 100 := by
    unfold sampleTimes
    rw [List.length_map, List.length_range]
  have hpath : getOrbitalPath oracle cat nid now hours =
      (sampleTimes now hours).filterMap oracle := by
    unfold getOrbitalPath
    rw [hlk]
    simp
  refine ⟨hpath, hlen, ?_, ?_, ?_⟩
  · intro i hi
    unfold sampleTimes
    rw [List.getD_eq_getElem _ _
      (by rw [List.length_map, List.length_range]; exact hi)]
    simp only [List.getElem_map, List.getElem_range]
    ring
  · intro t ht
    obtain ⟨i, hi, hit⟩ := List.mem_map.mp ht
    obtain hi' := List.mem_range.mp hi
    have hic : ((i : ℚ)) ≤ 99 := by
      exact_mod_cast Nat.le_of_lt_succ hi'
    have hic0 : (0 : ℚ) ≤ (i : ℚ) := by positivity
    have hmul : (i : ℚ) * hours ≤ 99 * hours :=
      mul_le_mul_of_nonneg_right hic hh
    have hmul0 : 0 ≤ (i : ℚ) * hours := mul_nonneg hic0 hh
    constructor
    · rw [← hit]
      have : (0 : ℚ) ≤ ((i : ℚ) * hours) / (24 * 100) := by positivity
      linarith
    · rw [← hit]
      have h1 : ((i : ℚ) * hours) / (24 * 100) ≤ (99 * hours) / (24 * 100) :=
        (div_le_div_iff_of_pos_right (by norm_num)).mpr hmul
      linarith
  · rw [hpath, ← hlen]
    exact List.length_filterMap_le _ _

/-- C9 witness: the concrete path over the fallback catalog has at most 100
points. -/
theorem c9_witness :
    (getOrbitalPath pathConst fallbackCatalog 25544 0 2).length ≤ 100 :=
  (c9_orbit_path pathConst fallbackCatalog 25544 issRecord 0 2 (by decide)
    (by norm_num)).2.2.2.2

/-- C10: for a catalog id absent from the catalog both the ground-track query
and the pass query return the empty list, and the same empty list is returned
for a present id whose samples all fail to propagate or whose event search
finds nothing, so at these two operations an unknown satellite cannot be told
apart from a known but uncomputable one. -/
theorem c10_unknown_id (oracle : PathOracle) (altaz : AltAzOracle)
    (cat : Catalog) (nid : Int) (evs : Option (List (ℚ × EventKind)))
    (now hours : ℚ) (h : cat.lookup nid = none) :
    getOrbitalPath oracle cat nid now hours = [] ∧
    getNextPasses altaz cat nid evs = [] ∧
    (∀ nid2 rec2, cat.lookup nid2 = some rec2 →
      getOrbitalPath (fun _ => none) cat nid2 now hours = [] ∧
      getNextPasses altaz cat nid2 (some []) = []) := by
  refine ⟨by simp [getOrbitalPath, h], by simp [getNextPasses, h], ?_⟩
  intro nid2 rec2 h2
  constructor
  · simp [getOrbitalPath, h2]
  · simp [getNextPasses, h2, buildPasses]

/-- C10 witness: an id absent from the fallback catalog gives the empty
path. -/
theorem c10_witness :
    getOrbitalPath pathConst fallbackCatalog 1 0 2 = [] :=
  (c10_unknown_id pathConst altazZero fallbackCatalog 1 none 0 2
    (by decide)).1

end SatTracker
